import Mathlib

/-!
Verification of `healthctl` (package `pkg/k8s`, file `k8s.go`) against its
specification. The Go code is shallowly embedded: cluster-API fetches become
`Except`-valued inputs, `log.Fatalf` and runtime panics become explicit
outcomes of a `GoOutcome` type, and `resource.Quantity` arithmetic (Go
`float64` and the integer `Value`/`MilliValue` accessors) is modelled over
exact rationals.
-/

namespace Healthctl

/-- Outcome of running a piece of Go code that may terminate the process:
`ok` is a normal return, `fatal` is a `log.Fatalf` exit, `panic` is a runtime
panic. Both `fatal` and `panic` terminate the host process. -/
inductive GoOutcome (α : Type) where
  | ok : α → GoOutcome α
  | fatal : String → GoOutcome α
  | panic : String → GoOutcome α
deriving DecidableEq, Repr

/-- Whether the outcome terminated the host process (fatal log or panic). -/
def GoOutcome.terminatesProcess : GoOutcome α → Bool
  | .ok _ => false
  | .fatal _ => true
  | .panic _ => true

/-- `TestStatus` from k8s.go: the verdict of one health probe.
The Go `error` field is modelled as `Option String`. -/
structure TestStatus where
  Status : Bool
  Info : String
  Error : Option String
deriving DecidableEq, Repr

/-- `resource.Quantity`, modelled by its exact rational amount. The Go
accessors `Value()` (plain units) and `MilliValue()` (thousandths) and the
`float64` divisions are taken over `Rat`, abstracting integer truncation and
floating-point rounding. -/
structure Quantity where
  amount : Rat
deriving DecidableEq, Repr

/-- `Quantity.IsZero()`. -/
def Quantity.IsZero (q : Quantity) : Bool := q.amount == 0

/-- `Quantity.MilliValue()`: the amount in thousandths. -/
def Quantity.MilliValue (q : Quantity) : Rat := q.amount * 1000

/-- `Quantity.Value()`: the amount in plain units. -/
def Quantity.Value (q : Quantity) : Rat := q.amount

/-- `Quantity.String()`: the canonical rendering of a quantity, abstracted to
the rendering of its rational amount (no claim depends on the exact text). -/
def Quantity.String (q : Quantity) : String := toString q.amount

/-- `GetCPUUsagePercentage` from k8s.go. -/
def GetCPUUsagePercentage (usage request : Quantity) : Rat :=
  if request.IsZero then 0
  else usage.MilliValue / request.MilliValue * 100

/-- `GetMemoryUsagePercentage` from k8s.go. -/
def GetMemoryUsagePercentage (usage request : Quantity) : Rat :=
  if request.IsZero then 0
  else usage.Value / request.Value * 100

/-- One entry of `node.Status.Conditions` (`v1.NodeCondition`): only the
`Type` and `Status` fields are read by the code. -/
structure NodeCondition where
  condType : String
  status : String
deriving DecidableEq, Repr

/-- A cluster node (`v1.Node`) as read by `CheckNodes`: its name and its
status conditions. -/
structure K8sNode where
  name : String
  conditions : List NodeCondition
deriving DecidableEq, Repr

/-- A node fails the readiness check when one of its conditions has type
"Ready" and a status other than "True" (the guard of the inner loop of
`CheckNodes`). -/
def nodeNotReady (n : K8sNode) : Bool :=
  n.conditions.any (fun c => c.condType == "Ready" && c.status != "True")

/-- The node loop of `CheckNodes`: return a failing verdict at the first node
having a "Ready" condition whose status is not "True", else pass. -/
def checkNodesLoop : List K8sNode → TestStatus
  | [] => ⟨true, "All nodes are ready", none⟩
  | n :: rest =>
    if nodeNotReady n then ⟨false, "Node " ++ n.name ++ " is not ready\n", none⟩
    else checkNodesLoop rest

/-- `CheckNodes` from k8s.go. The node listing fetched from the cluster API
is the input; a fetch error yields `{Status: false, Info: "", Error: err}`. -/
def CheckNodes (fetch : Except String (List K8sNode)) : TestStatus :=
  match fetch with
  | .error e => ⟨false, "", some e⟩
  | .ok nodes => checkNodesLoop nodes

/-- A container spec (`v1.Container`) as read by the code: its name and its
resource requests. `Resources.Requests.Cpu()` / `.Memory()` return the zero
quantity when the request is absent, so absence is folded into the value. -/
structure Container where
  name : String
  requestsCPU : Quantity
  requestsMemory : Quantity
deriving DecidableEq, Repr

/-- A pod (`v1.Pod`) as read by the code: name, namespace, status phase,
scheduled node name (`Spec.NodeName`), and container specs. -/
structure Pod where
  name : String
  nameSpace : String
  phase : String
  nodeName : String
  containers : List Container
deriving DecidableEq, Repr

/-- The zero-valued `v1.Pod{}`: what client-go's typed `Pods().Get` leaves in
its result pointer when the lookup fails. -/
def Pod.zero : Pod := ⟨"", "", "", "", []⟩

/-- The counting loop of `CheckPods`: `notRunningCount` is incremented for
every pod whose phase differs from "Running". -/
def notRunningLoop : List Pod → Nat
  | [] => 0
  | p :: rest => (if p.phase != "Running" then 1 else 0) + notRunningLoop rest

/-- `CheckPods` from k8s.go, over the fetched pod listing. -/
def CheckPods (fetch : Except String (List Pod)) : TestStatus :=
  match fetch with
  | .error e => ⟨false, "", some e⟩
  | .ok pods =>
    let notRunningCount := notRunningLoop pods
    if notRunningCount > 0 then
      ⟨false, toString notRunningCount ++ " pods are in not running state\n", none⟩
    else ⟨true, "All pods are running", none⟩

/-- The behaviour of the exec channel for one `ExecuteRemoteCommand` call:
the error (if any) from `remotecommand.NewSPDYExecutor`, the error (if any)
from `exec.Stream`, and the text the stream wrote into the stdout/stderr
buffers. -/
structure ExecTransport where
  newExecutorErr : Option String
  streamErr : Option String
  stdout : String
  stderr : String
deriving DecidableEq, Repr

/-- `ExecuteRemoteCommand` from k8s.go. `configErr` is the error from
`clientcmd.BuildConfigFromFlags`, which the code turns into a Go `panic`.
The executor-creation error is discarded (`exec, _ := ...`), but when
`remotecommand.NewSPDYExecutor` fails it returns a nil executor, so the
very next call `exec.Stream(...)` dereferences a nil interface and panics.
Otherwise the stream error is discarded (`_ = exec.Stream(...)`) and the
function returns the buffer contents together with a `nil` error. -/
def ExecuteRemoteCommand (configErr : Option String) (t : ExecTransport)
    (nspace pod container command : String) : GoOutcome (String × String × Option String) :=
  match configErr with
  | some e => .panic e
  | none =>
    match t.newExecutorErr with
    | some _ => .panic "runtime error: invalid memory address or nil pointer dereference"
    | none => .ok (t.stdout, t.stderr, none)

/-- `Node` from k8s.go: one member of the Redis cluster as listed in the
custom resource's status document. -/
structure Node where
  id : String
  ip : String
  podName : String
  port : String
  role : String
  slots : List String
  primaryRef : String
  zone : String
deriving DecidableEq, Repr

/-- `Cluster` from k8s.go: the `cluster` part of the status document. -/
structure Cluster where
  labelSelectorPath : String
  maxReplicationFactor : Int
  minReplicationFactor : Int
  nodes : List Node
  numberOfPods : Int
  numberOfPodsReady : Int
  numberOfPrimaries : Int
  numberOfPrimariesReady : Int
  numberOfRedisNodesRunning : Int
  numberOfReplicasPerPrimary : List (String × Int)
  status : String
deriving DecidableEq, Repr

/-- `Condition` from k8s.go (`time.Time` fields modelled as strings). -/
structure Condition where
  lastProbeTime : String
  lastTransitionTime : String
  message : String
  reason : String
  status : String
  condType : String
deriving DecidableEq, Repr

/-- `ClusterStatus` from k8s.go: the typed shape of the custom resource's
`status` sub-document. -/
structure ClusterStatus where
  cluster : Cluster
  conditions : List Condition
  startTime : String
deriving DecidableEq, Repr

/-- `missingDetails` from k8s.go: the per-pod enrichment record. -/
structure missingDetails where
  Worker : String
  CPU : String
  Memory : String
deriving DecidableEq, Repr

/-- `RedisStatus` from k8s.go. The Go map `PodDetails` is modelled as an
association list in insertion order with overwrite-on-duplicate-key. -/
structure RedisStatus where
  PrimariesConfigured : Int
  ReplicasConfigured : Int
  PodStatus : Bool
  ClusterState : Bool
  ClusterSlotsOk : Int
  ClusterKnownNodes : Int
  ClusterSize : Int
  ClusterSlotsPfail : Int
  ClusterSlotsFail : Int
  NumberActiveZones : Int
  RedisNodeDetails : List Node
  NumberZonesPrimaries : Int
  NumberPrimariesInZone : Int
  PodDetails : List (String × missingDetails)
deriving DecidableEq, Repr

/-- The Go zero value `RedisStatus{}`, returned when fetching the custom
resource itself fails. -/
def RedisStatus.zero : RedisStatus :=
  ⟨0, 0, false, false, 0, 0, 0, 0, 0, 0, [], 0, 0, []⟩

/-- The `NumberActiveZones` closure in `GetRedisStatus`: insert every node's
zone into a map (modelled as a `Finset`, matching Go map-key semantics) and
take its size. -/
def NumberActiveZones (nodes : List Node) : Nat :=
  (nodes.foldl (fun zoneMap node => insert node.zone zoneMap) (∅ : Finset String)).card

/-- Go map assignment `m[k] = v`: overwrite the entry if the key is present,
otherwise append it. -/
def mapUpdate (m : List (String × missingDetails)) (k : String) (v : missingDetails) :
    List (String × missingDetails) :=
  if m.any (fun kv => kv.1 == k) then
    m.map (fun kv => if kv.1 == k then (k, v) else kv)
  else m ++ [(k, v)]

/-- One iteration of the `PodDetails` closure in `GetRedisStatus`. `podGet`
models `Pods(redis_namespace).Get` by pod name: `none` is a lookup error, in
which case the Go code prints the error and continues with the zero-valued
pod client-go left behind; `pod.Spec.Containers[0]` on a pod with no
containers is a runtime index-out-of-range panic. -/
def podDetailsStep (podGet : String → Option Pod) (node : Node) : GoOutcome missingDetails :=
  let pod := match podGet node.podName with
    | some p => p
    | none => Pod.zero
  match pod.containers with
  | [] => .panic "runtime error: index out of range [0] with length 0"
  | c :: _ => .ok ⟨pod.nodeName, c.requestsCPU.String, c.requestsMemory.String⟩

/-- The loop of the `PodDetails` closure, accumulating the enrichment map. -/
def podDetailsLoop (podGet : String → Option Pod) :
    List Node → List (String × missingDetails) → GoOutcome (List (String × missingDetails))
  | [], acc => .ok acc
  | n :: rest, acc =>
    match podDetailsStep podGet n with
    | .ok d => podDetailsLoop podGet rest (mapUpdate acc n.podName d)
    | .fatal m => .fatal m
    | .panic m => .panic m

/-- The `RedisStatus` literal built by `GetRedisStatus` once the status
document decoded to `cs`, including running the `PodDetails` closure. -/
def buildRedisStatus (cs : ClusterStatus) (podGet : String → Option Pod) :
    GoOutcome RedisStatus :=
  match podDetailsLoop podGet cs.cluster.nodes [] with
  | .fatal m => .fatal m
  | .panic m => .panic m
  | .ok pd => .ok
      { PrimariesConfigured := cs.cluster.numberOfPrimaries
        ReplicasConfigured := cs.cluster.maxReplicationFactor
        PodStatus := cs.cluster.numberOfPods == cs.cluster.numberOfPodsReady
        ClusterState := cs.cluster.status == "OK"
        ClusterSlotsOk := (cs.cluster.nodes.length : Int)
        ClusterKnownNodes := (cs.cluster.nodes.length : Int)
        ClusterSize := cs.cluster.numberOfPods
        ClusterSlotsPfail := 0
        ClusterSlotsFail := 0
        RedisNodeDetails := cs.cluster.nodes
        NumberActiveZones := (NumberActiveZones cs.cluster.nodes : Int)
        NumberZonesPrimaries := 1
        NumberPrimariesInZone := cs.cluster.numberOfPrimaries
        PodDetails := pd }

/-- The `status` sub-document of the fetched custom resource, identified by
what `json.Unmarshal` into `ClusterStatus` does with it: it either fails
with an error or yields a typed `ClusterStatus`. -/
inductive StatusDoc where
  | undecodable : String → StatusDoc
  | decodes : ClusterStatus → StatusDoc

/-- Result of the dynamic-client `Get` of the custom resource: either the
fetch itself errored, or it returned an object whose `status` field is
absent (`none`, covering `unstructured.NestedMap` reporting not-found or an
error) or present as a `StatusDoc`. -/
inductive CRFetch where
  | fetchErr : String → CRFetch
  | fetched : Option StatusDoc → CRFetch

/-- `GetRedisStatus` from k8s.go. A fetch error prints and returns the zero
`RedisStatus`; a missing status field hits
`log.Fatalf("Error fetching status field: ...")`; an unmarshalling failure
hits `log.Fatalf("Error unmarshalling status field: ...")`; otherwise the
report is built from the decoded `ClusterStatus`. -/
def GetRedisStatus (cr : CRFetch) (podGet : String → Option Pod) : GoOutcome RedisStatus :=
  match cr with
  | .fetchErr _ => .ok RedisStatus.zero
  | .fetched none => .fatal "Error fetching status field"
  | .fetched (some (.undecodable e)) => .fatal ("Error unmarshalling status field: " ++ e)
  | .fetched (some (.decodes cs)) => buildRedisStatus cs podGet

/-- Container-level metrics (`metricsv1beta1.ContainerMetrics`): name and
usage quantities for CPU and memory. -/
structure ContainerMetrics where
  name : String
  usageCPU : Quantity
  usageMemory : Quantity
deriving DecidableEq, Repr

/-- Pod-level metrics (`metricsv1beta1.PodMetrics`). -/
structure PodMetrics where
  nameSpace : String
  name : String
  containers : List ContainerMetrics
deriving DecidableEq, Repr

/-- The `fmt.Sprintf("%s/%s", Namespace, Name)` key of a metrics entry. -/
def podMetricsKey (m : PodMetrics) : String := m.nameSpace ++ "/" ++ m.name

/-- `podMetricsMap` from `GetResourceUsageReport`: a Go map built by
inserting every metrics item in listing order (a later item with the same
key overwrites an earlier one). -/
def buildMetricsMap (items : List PodMetrics) : String → Option PodMetrics :=
  items.foldl (fun acc m => fun k => if k == podMetricsKey m then some m else acc k)
    (fun _ => none)

/-- `ContainerUsage` from k8s.go (`float64` fields as exact rationals). -/
structure ContainerUsage where
  Name : String
  CPUUsage : Rat
  MemoryUsage : Rat
deriving DecidableEq, Repr

/-- `PodUsage` from k8s.go. -/
structure PodUsage where
  PodName : String
  Namespace : String
  ContainerUsages : List ContainerUsage
deriving DecidableEq, Repr

/-- `ResourceUsageReport` from k8s.go. -/
structure ResourceUsageReport where
  PodsUsage : List PodUsage
deriving DecidableEq, Repr

/-- Inner loop of `GetResourceUsageReport` for one pod container: one
`ContainerUsage` per metrics container whose name matches. -/
def containerUsagesFor (pm : PodMetrics) (c : Container) : List ContainerUsage :=
  (pm.containers.filter (fun cm => c.name == cm.name)).map (fun cm =>
    ⟨c.name, GetCPUUsagePercentage cm.usageCPU c.requestsCPU,
      GetMemoryUsagePercentage cm.usageMemory c.requestsMemory⟩)

/-- Per-pod body of the main loop of `GetResourceUsageReport`: a pod found
in the metrics map gets the joined container usages, a pod absent from it
gets an empty list. -/
def podUsageOf (podMetricsMap : String → Option PodMetrics) (p : Pod) : PodUsage :=
  match podMetricsMap (p.nameSpace ++ "/" ++ p.name) with
  | some pm => ⟨p.name, p.nameSpace, p.containers.flatMap (containerUsagesFor pm)⟩
  | none => ⟨p.name, p.nameSpace, []⟩

/-- The main loop of `GetResourceUsageReport`: one `PodUsage` per listed pod,
in listing order. -/
def podsUsageJoin (pods : List Pod) (podMetricsMap : String → Option PodMetrics) :
    List PodUsage :=
  pods.map (podUsageOf podMetricsMap)

/-- `GetResourceUsageReport` from k8s.go: a failed pod listing hits
`log.Fatalf("Error fetching pods: ...")`, a failed metrics listing hits
`log.Fatalf("Error fetching pod metrics: ...")`; otherwise the report is the
join of the two listings. -/
def GetResourceUsageReport (podsFetch : Except String (List Pod))
    (metricsFetch : Except String (List PodMetrics)) : GoOutcome ResourceUsageReport :=
  match podsFetch with
  | .error e => .fatal ("Error fetching pods: " ++ e)
  | .ok pods =>
    match metricsFetch with
    | .error e => .fatal ("Error fetching pod metrics: " ++ e)
    | .ok items => .ok ⟨podsUsageJoin pods (buildMetricsMap items)⟩

/-! Concrete inputs used by the witness theorems. -/

def demoReadyNode : K8sNode := ⟨"w1", [⟨"Ready", "True"⟩]⟩

def demoBadNode : K8sNode := ⟨"w2", [⟨"Ready", "False"⟩]⟩

def demoNodes : List K8sNode := [demoReadyNode, demoBadNode]

def demoPendingPod : Pod := ⟨"p1", "default", "Pending", "", []⟩

def demoRunningPod : Pod := ⟨"p2", "default", "Running", "w1", []⟩

def demoSucceededPod : Pod := ⟨"p3", "batch", "Succeeded", "w1", []⟩

def demoPods : List Pod := [demoPendingPod, demoRunningPod, demoSucceededPod]

def demoFailingTransport : ExecTransport :=
  ⟨none, some "error dialing backend", "", ""⟩

def demoNilExecTransport : ExecTransport :=
  ⟨some "protocol negotiation failed", none, "", ""⟩

def demoRedisNode : Node :=
  ⟨"node-1", "10.0.0.1", "rc-pod-0", "6379", "primary", [], "", "zone-a"⟩

def demoRedisNode2 : Node :=
  ⟨"node-2", "10.0.0.2", "rc-pod-1", "6379", "replica", [], "node-1", "zone-a"⟩

def demoClusterOneNode : ClusterStatus :=
  ⟨⟨"", 1, 1, [demoRedisNode], 1, 1, 1, 1, 1, [], "OK"⟩, [], ""⟩

def demoRedisPod : Pod :=
  ⟨"rc-pod-0", "fed-redis-cluster", "Running", "worker-1", [⟨"redis-node", ⟨1⟩, ⟨2⟩⟩]⟩

def demoPodGet : String → Option Pod :=
  fun name => if name == "rc-pod-0" then some demoRedisPod else none

def demoJoinPodA : Pod := ⟨"p1", "default", "Running", "w1", [⟨"c1", ⟨1⟩, ⟨4⟩⟩]⟩

def demoJoinPodB : Pod := ⟨"p2", "default", "Running", "w2", []⟩

def demoMetricsA : PodMetrics := ⟨"default", "p1", [⟨"c1", ⟨1/2⟩, ⟨1⟩⟩]⟩

def demoMetricsB : PodMetrics := ⟨"default", "p2", [⟨"c1", ⟨2⟩, ⟨3⟩⟩]⟩

end Healthctl

namespace Healthctl

/-- Helper: the loop of `CheckNodes` passes exactly when no listed node has a
"Ready" condition with status other than "True". -/
theorem checkNodesLoop_status_true (ns : List K8sNode) :
    (checkNodesLoop ns).Status = true ↔
      ∀ n ∈ ns, ∀ c ∈ n.conditions, ¬(c.condType = "Ready" ∧ c.status ≠ "True") := by
  induction ns with
  | nil =>
    simp [checkNodesLoop]
  | cons n rest ih =>
    by_cases h : nodeNotReady n
    · simp only [checkNodesLoop, h, if_pos]
      constructor
      · intro hfalse
        simp at hfalse
      · intro hall
        exfalso
        unfold nodeNotReady at h
        rw [List.any_eq_true] at h
        obtain ⟨c, hc, hcc⟩ := h
        rw [Bool.and_eq_true, beq_iff_eq, bne_iff_ne] at hcc
        exact hall n (List.mem_cons_self n rest) c hc ⟨hcc.1, hcc.2⟩
    · simp only [checkNodesLoop, h, if_neg, Bool.false_eq_true, not_false_iff]
      rw [ih]
      constructor
      · intro hrest m hm c hc
        rcases List.mem_cons.mp hm with hmn | hmr
        · subst hmn
          intro ⟨h1, h2⟩
          apply h
          unfold nodeNotReady
          rw [List.any_eq_true]
          exact ⟨c, hc, by rw [Bool.and_eq_true, beq_iff_eq, bne_iff_ne]; exact ⟨h1, h2⟩⟩
        · exact hrest m hmr c hc
      · intro hall m hm c hc
        exact hall m (List.mem_cons_of_mem n hm) c hc

/-- Helper: when the first failing node (in listing order) is `n`, the loop
returns the failing verdict naming `n`. -/
theorem checkNodesLoop_first_failing (ns : List K8sNode) (n : K8sNode)
    (h : ns.find? nodeNotReady = some n) :
    checkNodesLoop ns = ⟨false, "Node " ++ n.name ++ " is not ready\n", none⟩ := by
  induction ns with
  | nil => simp [List.find?] at h
  | cons m rest ih =>
    by_cases hm : nodeNotReady m
    · rw [List.find?_cons_of_pos _ hm] at h
      injection h with h
      subst h
      simp [checkNodesLoop, hm]
    · rw [List.find?_cons_of_neg _ hm] at h
      simp only [checkNodesLoop, hm, if_neg, Bool.false_eq_true, not_false_iff]
      exact ih h

/-- C5: for every node listing, `CheckNodes` passes exactly when no node has
a "Ready" condition whose status is not "True", and when some node fails the
verdict names the first failing node of the listing. -/
theorem checkNodes_ready_iff (ns : List K8sNode) :
    ((CheckNodes (.ok ns)).Status = true ↔
      ∀ n ∈ ns, ∀ c ∈ n.conditions, ¬(c.condType = "Ready" ∧ c.status ≠ "True"))
    ∧ (∀ n, ns.find? nodeNotReady = some n →
        CheckNodes (.ok ns) = ⟨false, "Node " ++ n.name ++ " is not ready\n", none⟩) :=
  ⟨checkNodesLoop_status_true ns, fun n h => checkNodesLoop_first_failing ns n h⟩

/-- Witness for C5 on a concrete listing whose second node is not ready. -/
theorem checkNodes_ready_iff_witness :
    CheckNodes (.ok demoNodes) =
      ⟨false, "Node " ++ demoBadNode.name ++ " is not ready\n", none⟩ :=
  (checkNodes_ready_iff demoNodes).2 demoBadNode (by decide)

/-- Helper: the counting loop equals the length of the filtered listing. -/
theorem notRunningLoop_eq_filter_length (pods : List Pod) :
    notRunningLoop pods = (pods.filter (fun p => p.phase != "Running")).length := by
  induction pods with
  | nil => rfl
  | cons p rest ih =>
    by_cases h : p.phase != "Running"
    · simp [notRunningLoop, List.filter_cons, h, ih]
      omega
    · simp only [Bool.not_eq_true] at h
      simp [notRunningLoop, List.filter_cons, h, ih]

/-- C6: for every pod listing, `CheckPods` counts exactly the pods whose
phase is not the string "Running" (a "Succeeded" pod counts), passes exactly
when that count is zero, and otherwise fails with the count in the detail. -/
theorem checkPods_count_spec (pods : List Pod) :
    notRunningLoop pods = (pods.filter (fun p => p.phase != "Running")).length
    ∧ ((CheckPods (.ok pods)).Status = true ↔
        (pods.filter (fun p => p.phase != "Running")).length = 0)
    ∧ ((pods.filter (fun p => p.phase != "Running")).length ≠ 0 →
        CheckPods (.ok pods) =
          ⟨false, toString (pods.filter (fun p => p.phase != "Running")).length ++
            " pods are in not running state\n", none⟩) := by
  have hlen := notRunningLoop_eq_filter_length pods
  refine ⟨hlen, ?_, ?_⟩
  · by_cases h : notRunningLoop pods > 0
    · have h0 : (pods.filter (fun p => p.phase != "Running")).length ≠ 0 := by omega
      simp only [CheckPods]
      rw [if_pos h]
      simp [h0]
    · have h0 : (pods.filter (fun p => p.phase != "Running")).length = 0 := by omega
      simp only [CheckPods]
      rw [if_neg h]
      simp [h0]
  · intro h0
    have h : notRunningLoop pods > 0 := by omega
    simp only [CheckPods]
    rw [if_pos h, hlen]

/-- Witness for C6 on a concrete listing with one pending, one running and
one succeeded pod: the count is 2 and the probe fails. -/
theorem checkPods_count_spec_witness :
    CheckPods (.ok demoPods) =
      ⟨false, toString (demoPods.filter (fun p => p.phase != "Running")).length ++
        " pods are in not running state\n", none⟩ :=
  (checkPods_count_spec demoPods).2.2 (by decide)

/-- C7: for every usage and request quantity, both usage-percentage
functions return exactly 0 when the request is zero, and exactly
`used / requested * 100` otherwise. -/
theorem usage_percentage_zero_guard (usage request : Quantity) :
    (request.amount = 0 →
      GetCPUUsagePercentage usage request = 0 ∧ GetMemoryUsagePercentage usage request = 0)
    ∧ (request.amount ≠ 0 →
      GetCPUUsagePercentage usage request = usage.amount / request.amount * 100
      ∧ GetMemoryUsagePercentage usage request = usage.amount / request.amount * 100) := by
  constructor
  · intro h
    simp [GetCPUUsagePercentage, GetMemoryUsagePercentage, Quantity.IsZero, h]
  · intro h
    have hb : (request.amount == 0) = false := beq_eq_false_iff_ne.mpr h
    unfold GetCPUUsagePercentage GetMemoryUsagePercentage Quantity.IsZero
      Quantity.MilliValue Quantity.Value
    rw [hb]
    simp only [Bool.false_eq_true, if_false]
    constructor
    · rw [mul_comm usage.amount 1000, mul_comm request.amount 1000,
        mul_div_mul_left usage.amount request.amount (by norm_num)]
    · trivial

/-- Witness for C7: a zero request yields 0 even with nonzero usage, and a
request of 4 with usage 1 yields 25%. -/
theorem usage_percentage_zero_guard_witness :
    GetCPUUsagePercentage ⟨7⟩ ⟨0⟩ = 0 ∧ GetMemoryUsagePercentage ⟨7⟩ ⟨0⟩ = 0
    ∧ GetCPUUsagePercentage ⟨1⟩ ⟨4⟩ = 25 := by
  obtain ⟨h1, h2⟩ := (usage_percentage_zero_guard ⟨7⟩ ⟨0⟩).1 rfl
  refine ⟨h1, h2, ?_⟩
  have h3 := ((usage_percentage_zero_guard ⟨1⟩ ⟨4⟩).2 (by norm_num)).1
  rw [h3]
  norm_num

/-- C1 as stated is false: on a document with a missing `status` field,
`GetRedisStatus` terminates the host process (`log.Fatalf`) rather than
returning a recoverable decode error. -/
theorem redis_missing_status_terminates :
    (GetRedisStatus (.fetched none) (fun _ => none)).terminatesProcess = true
    ∧ GetRedisStatus (.fetched none) (fun _ => none) =
        .fatal "Error fetching status field" :=
  ⟨rfl, rfl⟩

/-- C1 amended: for every document whose status sub-document is missing or
fails to decode into `ClusterStatus`, `GetRedisStatus` terminates the host
process through a fatal log; nothing is returned to the caller. -/
theorem redis_decode_failure_fatal (podGet : String → Option Pod) (e : String) :
    (GetRedisStatus (.fetched none) podGet).terminatesProcess = true
    ∧ (GetRedisStatus (.fetched (some (.undecodable e))) podGet).terminatesProcess = true
    ∧ GetRedisStatus (.fetched (some (.undecodable e))) podGet =
        .fatal ("Error unmarshalling status field: " ++ e) :=
  ⟨rfl, rfl, rfl⟩

/-- C2 as stated is false: on a call whose stream fails, the error result is
still `none` — the failure is not returned to the caller. -/
theorem exec_stream_error_not_returned :
    demoFailingTransport.streamErr = some "error dialing backend"
    ∧ ExecuteRemoteCommand none demoFailingTransport "fed-prometheus" "pod-0" "app" "ls"
        = .ok ("", "", none) :=
  ⟨rfl, rfl⟩

/-- C2 amended: when the exec channel opens, `ExecuteRemoteCommand` discards
the stream error and returns the buffer contents with a nil error, whatever
the stream did; when `NewSPDYExecutor` fails, the discarded error leaves a
nil executor and calling `Stream` on it panics, crashing the process — in
neither case is the failure returned to the caller. -/
theorem exec_always_nil_error (t : ExecTransport) (nspace pod container command : String) :
    (t.newExecutorErr = none →
      ExecuteRemoteCommand none t nspace pod container command =
        .ok (t.stdout, t.stderr, none))
    ∧ (∀ e, t.newExecutorErr = some e →
      ExecuteRemoteCommand none t nspace pod container command =
        .panic "runtime error: invalid memory address or nil pointer dereference") := by
  constructor
  · intro h
    simp [ExecuteRemoteCommand, h]
  · intro e he
    simp [ExecuteRemoteCommand, he]

/-- Witness for the amended C2: a transport whose stream fails still yields
a nil error, and a transport whose executor creation fails panics. -/
theorem exec_always_nil_error_witness :
    ExecuteRemoteCommand none demoFailingTransport "fed-prometheus" "pod-0" "app" "ls"
        = .ok ("", "", none)
    ∧ ExecuteRemoteCommand none demoNilExecTransport "fed-prometheus" "pod-0" "app" "ls"
        = .panic "runtime error: invalid memory address or nil pointer dereference" :=
  ⟨(exec_always_nil_error demoFailingTransport "fed-prometheus" "pod-0" "app" "ls").1 rfl,
   (exec_always_nil_error demoNilExecTransport "fed-prometheus" "pod-0" "app" "ls").2
     "protocol negotiation failed" rfl⟩

/-- C3: evaluating the code at a report whose single node has a `podName`
resolving to no pod: the enrichment loop dereferences `Containers[0]` of the
zero-valued pod and panics, instead of zero-filling that node's fields and
continuing. -/
theorem enrichment_missing_pod_panics :
    GetRedisStatus (.fetched (some (.decodes demoClusterOneNode))) (fun _ => none)
      = .panic "runtime error: index out of range [0] with length 0" :=
  rfl

/-- C4 as stated is false: a failed pod listing makes
`GetResourceUsageReport` terminate the process; it does not return the empty
report. -/
theorem usage_fetch_error_terminates :
    (GetResourceUsageReport (.error "connection refused") (.ok [])).terminatesProcess = true
    ∧ GetResourceUsageReport (.error "connection refused") (.ok [])
        = .fatal "Error fetching pods: connection refused"
    ∧ GetResourceUsageReport (.error "connection refused") (.ok []) ≠ .ok ⟨[]⟩ :=
  ⟨rfl, rfl, by decide⟩

/-- C4 amended: a failure to fetch the pod listing or the metrics snapshot
terminates the host process through a fatal log; no result list (empty or
otherwise) is returned. -/
theorem usage_fetch_failure_fatal (e : String) (pods : List Pod)
    (m : Except String (List PodMetrics)) :
    (GetResourceUsageReport (.error e) m).terminatesProcess = true
    ∧ (GetResourceUsageReport (.ok pods) (.error e)).terminatesProcess = true :=
  ⟨rfl, rfl⟩

/-- Helper: the zone fold of `NumberActiveZones` accumulates the set of
zones of the listed nodes. -/
theorem foldl_insert_zone (nodes : List Node) (s : Finset String) :
    nodes.foldl (fun zoneMap node => insert node.zone zoneMap) s
      = s ∪ (nodes.map Node.zone).toFinset := by
  induction nodes generalizing s with
  | nil => simp
  | cons n rest ih =>
    simp only [List.foldl_cons, ih, List.map_cons, List.toFinset_cons]
    ext a
    simp only [Finset.mem_union, Finset.mem_insert, List.mem_toFinset]
    tauto

/-- C8: `NumberActiveZones` (the `activeZones` closure of `GetRedisStatus`)
equals the number of distinct zone values across all nodes; it is 0 on an
empty node list and 1 when all nodes share one zone. -/
theorem numberActiveZones_distinct (nodes : List Node) :
    NumberActiveZones nodes = (nodes.map Node.zone).toFinset.card
    ∧ (nodes = [] → NumberActiveZones nodes = 0)
    ∧ (∀ z : String, nodes ≠ [] → (∀ n ∈ nodes, n.zone = z) →
        NumberActiveZones nodes = 1) := by
  have hmain : NumberActiveZones nodes = (nodes.map Node.zone).toFinset.card := by
    unfold NumberActiveZones
    rw [foldl_insert_zone, Finset.empty_union]
  refine ⟨hmain, ?_, ?_⟩
  · intro h
    subst h
    rfl
  · intro z hne hall
    rw [hmain]
    have hset : (nodes.map Node.zone).toFinset = {z} := by
      ext a
      simp only [List.mem_toFinset, List.mem_map, Finset.mem_singleton]
      constructor
      · rintro ⟨n, hn, rfl⟩
        exact hall n hn
      · rintro rfl
        obtain ⟨n, hn⟩ := List.exists_mem_of_ne_nil nodes hne
        exact ⟨n, hn, hall n hn⟩
    rw [hset, Finset.card_singleton]

/-- Witness for C8: two nodes sharing zone "zone-a" yield one active zone. -/
theorem numberActiveZones_distinct_witness :
    NumberActiveZones [demoRedisNode, demoRedisNode2] = 1 :=
  (numberActiveZones_distinct [demoRedisNode, demoRedisNode2]).2.2 "zone-a"
    (by decide) (by decide)

/-- C10: whenever the status document decodes and `GetRedisStatus` returns a
report, that report has `ClusterSlotsPfail = 0`, `ClusterSlotsFail = 0` and
`NumberZonesPrimaries = 1` unconditionally, and `ClusterSlotsOk` and
`ClusterKnownNodes` both equal the length of the report's node list. -/
theorem redisStatus_constant_fields (cs : ClusterStatus) (podGet : String → Option Pod)
    (r : RedisStatus)
    (h : GetRedisStatus (.fetched (some (.decodes cs))) podGet = .ok r) :
    r.ClusterSlotsPfail = 0 ∧ r.ClusterSlotsFail = 0 ∧ r.NumberZonesPrimaries = 1
    ∧ r.ClusterSlotsOk = (cs.cluster.nodes.length : Int)
    ∧ r.ClusterKnownNodes = (cs.cluster.nodes.length : Int) := by
  unfold GetRedisStatus buildRedisStatus at h
  dsimp only at h
  cases hpd : podDetailsLoop podGet cs.cluster.nodes [] with
  | ok pd =>
    rw [hpd] at h
    injection h with h
    subst h
    exact ⟨rfl, rfl, rfl, rfl, rfl⟩
  | fatal m =>
    rw [hpd] at h
    exact absurd h (by simp)
  | panic m =>
    rw [hpd] at h
    exact absurd h (by simp)

/-- Witness for C10 on a concrete one-node report whose pod resolves. -/
theorem redisStatus_constant_fields_witness :
    (⟨1, 1, true, true, 1, 1, 1, 0, 0, 1, [demoRedisNode], 1, 1,
        [("rc-pod-0", ⟨"worker-1", "1", "2"⟩)]⟩ : RedisStatus).ClusterSlotsPfail = 0
    ∧ (⟨1, 1, true, true, 1, 1, 1, 0, 0, 1, [demoRedisNode], 1, 1,
        [("rc-pod-0", ⟨"worker-1", "1", "2"⟩)]⟩ : RedisStatus).NumberZonesPrimaries = 1 := by
  have h : GetRedisStatus (.fetched (some (.decodes demoClusterOneNode))) demoPodGet
      = .ok ⟨1, 1, true, true, 1, 1, 1, 0, 0, 1, [demoRedisNode], 1, 1,
          [("rc-pod-0", ⟨"worker-1", "1", "2"⟩)]⟩ := by rfl
  have hc := redisStatus_constant_fields demoClusterOneNode demoPodGet _ h
  exact ⟨hc.1, hc.2.2.1⟩

/-- Helper: anything the metrics-map fold returns either is a listed item
bearing the looked-up key, or comes from the initial accumulator. -/
theorem buildMetricsMap_fold_some (items : List PodMetrics)
    (acc : String → Option PodMetrics) (k : String) (x : PodMetrics)
    (h : items.foldl (fun acc m => fun k => if k == podMetricsKey m then some m else acc k)
        acc k = some x) :
    (x ∈ items ∧ podMetricsKey x = k) ∨ acc k = some x := by
  induction items generalizing acc with
  | nil => exact Or.inr h
  | cons m rest ih =>
    rw [List.foldl_cons] at h
    rcases ih _ h with ⟨hmem, hkey⟩ | hacc
    · exact Or.inl ⟨List.mem_cons_of_mem _ hmem, hkey⟩
    · by_cases hk : k == podMetricsKey m
      · simp only [hk, if_pos] at hacc
        injection hacc with hacc
        subst hacc
        exact Or.inl ⟨List.mem_cons_self _ _, (beq_iff_eq.mp hk).symm⟩
      · simp only [hk, if_neg, Bool.false_eq_true, not_false_iff] at hacc
        exact Or.inr hacc

/-- Helper: when the metrics-map fold misses, no listed item bears the
looked-up key and the initial accumulator also misses. -/
theorem buildMetricsMap_fold_none (items : List PodMetrics)
    (acc : String → Option PodMetrics) (k : String)
    (h : items.foldl (fun acc m => fun k => if k == podMetricsKey m then some m else acc k)
        acc k = none) :
    (∀ x ∈ items, podMetricsKey x ≠ k) ∧ acc k = none := by
  induction items generalizing acc with
  | nil => exact ⟨fun x hx => absurd hx (List.not_mem_nil x), h⟩
  | cons m rest ih =>
    rw [List.foldl_cons] at h
    obtain ⟨hrest, hacc⟩ := ih _ h
    by_cases hk : k == podMetricsKey m
    · simp only [hk, if_pos] at hacc
      exact absurd hacc (by simp)
    · simp only [hk, if_neg, Bool.false_eq_true, not_false_iff] at hacc
      refine ⟨?_, hacc⟩
      intro x hx
      rcases List.mem_cons.mp hx with rfl | hxr
      · intro hkey
        exact hk (beq_iff_eq.mpr hkey.symm)
      · exact hrest x hxr

/-- Helper: with pairwise-distinct `namespace/name` keys, the metrics map is
invariant under permutation of the metrics listing. -/
theorem buildMetricsMap_perm (items items' : List PodMetrics)
    (hm : items.Perm items') (hnd : (items.map podMetricsKey).Nodup) :
    buildMetricsMap items = buildMetricsMap items' := by
  funext k
  cases h : buildMetricsMap items k with
  | none =>
    cases h' : buildMetricsMap items' k with
    | none => rfl
    | some y =>
      rcases buildMetricsMap_fold_some items' _ k y h' with ⟨hmem, hkey⟩ | habs
      · exact absurd hkey
          ((buildMetricsMap_fold_none items _ k h).1 y (hm.symm.subset hmem))
      · exact absurd habs (by simp)
  | some x =>
    rcases buildMetricsMap_fold_some items _ k x h with ⟨hmem, hkey⟩ | habs
    · cases h' : buildMetricsMap items' k with
      | none =>
        exact absurd hkey
          ((buildMetricsMap_fold_none items' _ k h').1 x (hm.subset hmem))
      | some y =>
        rcases buildMetricsMap_fold_some items' _ k y h' with ⟨hmem', hkey'⟩ | habs'
        · have hxy : x = y :=
            List.inj_on_of_nodup_map hnd hmem (hm.symm.subset hmem')
              (hkey.trans hkey'.symm)
          rw [hxy]
        · exact absurd habs' (by simp)
    · exact absurd habs (by simp)

/-- C9: permuting the pod listing or the metrics listing (the latter having
pairwise-distinct `namespace/name` keys, as a snapshot keyed by
`namespace/name` does) leaves the per-pod usage set produced by
`GetResourceUsageReport` unchanged up to permutation. -/
theorem usage_join_order_independent (pods pods' : List Pod)
    (items items' : List PodMetrics) (hp : pods.Perm pods') (hm : items.Perm items')
    (hnd : (items.map podMetricsKey).Nodup) :
    ∀ u u', GetResourceUsageReport (.ok pods) (.ok items) = .ok u →
      GetResourceUsageReport (.ok pods') (.ok items') = .ok u' →
      u.PodsUsage.Perm u'.PodsUsage := by
  intro u u' hu hu'
  unfold GetResourceUsageReport at hu hu'
  dsimp only at hu hu'
  injection hu with hu
  injection hu' with hu'
  subst hu hu'
  show (podsUsageJoin pods (buildMetricsMap items)).Perm
    (podsUsageJoin pods' (buildMetricsMap items'))
  rw [← buildMetricsMap_perm items items' hm hnd]
  exact hp.map (podUsageOf (buildMetricsMap items))

/-- Witness for C9: swapping both a two-pod listing and its two-entry
metrics snapshot yields a permuted (here: reversed) usage list. -/
theorem usage_join_order_independent_witness :
    (⟨podsUsageJoin [demoJoinPodA, demoJoinPodB]
        (buildMetricsMap [demoMetricsA, demoMetricsB])⟩ : ResourceUsageReport).PodsUsage.Perm
      (⟨podsUsageJoin [demoJoinPodB, demoJoinPodA]
        (buildMetricsMap [demoMetricsB, demoMetricsA])⟩ : ResourceUsageReport).PodsUsage :=
  usage_join_order_independent [demoJoinPodA, demoJoinPodB] [demoJoinPodB, demoJoinPodA]
    [demoMetricsA, demoMetricsB] [demoMetricsB, demoMetricsA]
    (List.Perm.swap demoJoinPodB demoJoinPodA [])
    (List.Perm.swap demoMetricsB demoMetricsA [])
    (by decide) _ _ rfl rfl

end Healthctl
